import Mathlib

/-
  Verification of the genmod variant-annotation pipeline
  (scripts/run_genmod.py and tests/test_recessive.py).

  The definitions below are a shallow embedding of the functions of
  scripts/run_genmod.py: pure pieces become Lean functions, the control
  flow of the `annotate` command becomes an explicit trace-producing
  function over an input record that captures the externally observable
  state (whether the index files exist, the parsed pedigree families,
  the individual ids of the variant file, the cpu count, and whether the
  worker/queue phase raises).  The genetic-model classifier
  (genmod.models.genetic_models) is not part of the sources, only its
  test is; where a claim needs it, the definition is modelled from the
  specification and marked as such in its doc comment.
-/

namespace Genmod

/-- A single-individual genotype at a single variant, as in the spec's
data model: one of hom_ref, het, hom_alt, missing. -/
inductive GT where
  | hom_ref
  | het
  | hom_alt
  | missing
deriving DecidableEq, BEq, Repr

/-- Modelled from the spec: the genotype strings used by the tests and
the spec scenarios ("0/0", "0/1", "1/0", "1/1", "./.") mapped to the
four-valued Genotype of the data model; anything uncalled is missing.
(The genmod.variants.genotype module is not under the sources.) -/
def parseGT (s : String) : GT :=
  if s = "0/0" then .hom_ref
  else if s = "0/1" ∨ s = "1/0" then .het
  else if s = "1/1" then .hom_alt
  else .missing

/-- The genotypes of the test family of tests/test_recessive.py at one
variant: affected son `1`, unaffected father `2`, unaffected mother `3`. -/
structure TrioGenotypes where
  child : GT
  father : GT
  mother : GT
deriving DecidableEq, Repr

/-- Modelled from the spec: the `AR_hom` rule of §4.D for the trio
family (the classifier genmod.models.genetic_models.check_genetic_models
is not under the sources, only tests/test_recessive.py is).  The affected
child is hom_alt; both parents are het or missing; no unaffected
individual (here: the parents) is hom_alt — the het-or-missing condition
on the parents already excludes that. -/
def AR_hom (v : TrioGenotypes) : Bool :=
  (v.child == .hom_alt)
  && (v.father == .het || v.father == .missing)
  && (v.mother == .het || v.mother == .missing)

/-- Modelled from the spec: the `AR_hom_denovo` rule of §4.D for the trio
family, read together with the spec's missing-genotype tolerance
("missing parent genotypes are treated permissively — they neither
confirm nor refute de-novo calls"; "a model is not falsified by missing
calls alone").  The affected child is hom_alt; no unaffected individual
is hom_alt (each parent is het, hom_ref or missing); and at least one
parent lacks the allele — shown by an informative hom_ref call, or left
possible by a missing call. -/
def AR_hom_denovo (v : TrioGenotypes) : Bool :=
  (v.child == .hom_alt)
  && (v.father != .hom_alt)
  && (v.mother != .hom_alt)
  && (v.father == .hom_ref || v.father == .missing
      || v.mother == .hom_ref || v.mother == .missing)

/- ---------------------------------------------------------------
   scripts/run_genmod.py, helper functions
   --------------------------------------------------------------- -/

/-- os.path.join for a directory argument without a trailing slash, as
the paths of run_genmod.py use it. -/
def os_path_join (dir file : String) : String :=
  dir ++ "/" ++ file

/-- get_family (run_genmod.py lines 38-43): parse the pedigree file into
a families mapping and return `families.popitem()[1]`.  A family is
represented here by what the annotate flow reads from it: the list of
its individual ids.  popitem pops the most recently inserted entry of
the (insertion-ordered) dict and raises KeyError when the dict is empty,
hence the Option. -/
def get_family (families : List (String × List String)) : Option (List String) :=
  families.getLast?.map Prod.snd

/-- add_metadata (run_genmod.py lines 45-56), represented by the list of
header info ids after the call: ANN is added only when the vep flag is
not set; Comp, GM and MS are always added; CADD is added when cadd_file
or cadd_1000g is truthy; 1000G_freq is added when thousand_g is truthy.
The boolean arguments are the truthiness of the corresponding kwargs. -/
def add_metadata (head : List String) (vep cadd_file cadd_1000g thousand_g : Bool) :
    List String :=
  head
  ++ (if vep then [] else ["ANN"])
  ++ ["Comp", "GM", "MS"]
  ++ (if cadd_file || cadd_1000g then ["CADD"] else [])
  ++ (if thousand_g then ["1000G_freq"] else [])

/-- The observable effect of print_headers: an optional file write
(path, open mode, lines written) and the lines printed to stdout. -/
structure PrintEffect where
  fileWrite : Option (String × String × List String)
  stdout : List String
deriving DecidableEq, Repr

/-- print_headers (run_genmod.py lines 58-68): with an outfile it opens
the file in mode "w" and writes every header line, with no look at the
silent flag; without an outfile it prints the header lines to stdout
unless silent is set. -/
def print_headers (head : List String) (outfile : Option String) (silent : Bool) :
    PrintEffect :=
  match outfile with
  | some path => { fileWrite := some (path, "w", head), stdout := [] }
  | none => { fileWrite := none, stdout := if silent then [] else head }

/-- check_tabix_index (run_genmod.py lines 70-84), represented by the
diagnostics it prints.  `ioErr` is `some e` when the pysam tabix_index
call raises IOError with message e (and `none` when it succeeds): for
file_type cadd or vcf the IOError is caught and printed only when
verbose is set; any other file_type does nothing at all. -/
def check_tabix_index (ioErr : Option String) (file_type : String) (verbose : Bool) :
    List String :=
  if file_type = "cadd" then
    match ioErr with
    | some e => if verbose then [e] else []
    | none => []
  else if file_type = "vcf" then
    match ioErr with
    | some e => if verbose then [e] else []
    | none => []
  else []

/-- The worker-pool size (run_genmod.py lines 284-286): the cpu-based
formula `cpu_count()*2-1` of line 285 is commented out; line 286 sets
`num_model_checkers = (1)` unconditionally. -/
def num_model_checkers (_cpuCount : Nat) : Nat := 1

/-- Equality of two individual-id lists as sets, the
`set(...) != set(...)` comparison of run_genmod.py line 265. -/
def sameSet (a b : List String) : Bool :=
  a.all b.contains && b.all a.contains

/- ---------------------------------------------------------------
   scripts/run_genmod.py, the annotate command's control flow
   --------------------------------------------------------------- -/

/-- The externally visible inputs that steer the control flow of the
annotate command. -/
structure AnnotateInput where
  /-- genes.db and exons.db exist in the annotation directory. -/
  indexPresent : Bool
  /-- The pedigree families, in insertion order: family id, individual ids. -/
  families : List (String × List String)
  /-- The individual ids of the variant file. -/
  vcfIndividuals : List String
  /-- cpu_count() of the machine. -/
  cpuCount : Nat
  /-- An exception is raised during the worker/queue/printer phase
  (lines 292-318), e.g. an I/O failure while consuming variants. -/
  bodyFails : Bool
deriving DecidableEq, Repr

/-- How the annotate command terminates. -/
inductive Outcome where
  /-- The function returns normally. -/
  | completed
  /-- sys.exit was called; the interpreter exit status.  A bare
  `sys.exit()` carries None, which the interpreter maps to status 0. -/
  | sysExit (code : Nat)
  /-- An uncaught exception terminated the run. -/
  | exception
deriving DecidableEq, Repr

/-- The observable trace of one annotate run. -/
structure AnnotateTrace where
  printed : List String
  outcome : Outcome
  workersStarted : Nat
  tempDirCreated : Bool
  tempDirRemoved : Bool
  emittedHeader : Option (List String)
deriving DecidableEq, Repr

/-- The diagnostic of run_genmod.py line 244, printed when loading
genes.db or exons.db raises FileNotFoundError. -/
def missingIndexMsg : String :=
  "You need to build annotations! See documentation."

/-- The diagnostics of run_genmod.py lines 267-269, printed when the
pedigree and variant-file individual sets differ. -/
def mismatchMsgs (famInds vcfInds : List String) : List String :=
  ["There must be same individuals in ped file and vcf file! Aborting...",
   "Individuals in PED file: " ++ String.intercalate "\t" famInds,
   "Individuals in VCF file: " ++ String.intercalate "\t" vcfInds]

/-- The result of a Python call that can raise TypeError. -/
inductive CallResult (α : Type) where
  | ok (val : α)
  | typeError
deriving DecidableEq, Repr

/-- The call of run_genmod.py line 328, `add_metadata(head, kwargs)`:
the kwargs dict is passed as a second positional argument, but the
signature `add_metadata(head, **kwargs)` accepts exactly one positional
argument, so the call raises TypeError before add_metadata's body runs. -/
def add_metadata_call_site : CallResult (List String) :=
  .typeError

/-- The control flow of the annotate command (run_genmod.py lines
223-344), as the trace of its externally observable actions:

* lines 238-245: try to load genes.db and exons.db; on
  FileNotFoundError print a diagnostic and fall through (`pass`);
* line 247: get_family — popitem raises KeyError on an empty dict;
* lines 265-270: if the pedigree and variant-file individual sets
  differ, print three diagnostics and call `sys.exit()` (status 0);
* line 283: mkdtemp creates the scratch directory;
* lines 286-296: start `num_model_checkers` workers;
* lines 299-318: printer, annotator and queue phase (an exception here
  propagates; nothing catches it, so rmtree on line 344 never runs);
* line 328: `add_metadata(head, kwargs)` raises TypeError (the dict is
  positional), so lines 329-344 — print_headers, the per-chromosome
  sorting and `shutil.rmtree(temp_dir)` — are unreachable. -/
def annotate (inp : AnnotateInput) : AnnotateTrace :=
  let diag := if inp.indexPresent then [] else [missingIndexMsg]
  match get_family inp.families with
  | none =>
      { printed := diag, outcome := .exception, workersStarted := 0,
        tempDirCreated := false, tempDirRemoved := false, emittedHeader := none }
  | some fam =>
      if sameSet fam inp.vcfIndividuals = false then
        { printed := diag ++ mismatchMsgs fam inp.vcfIndividuals,
          outcome := .sysExit 0, workersStarted := 0,
          tempDirCreated := false, tempDirRemoved := false, emittedHeader := none }
      else
        let n := num_model_checkers inp.cpuCount
        if inp.bodyFails then
          { printed := diag, outcome := .exception, workersStarted := n,
            tempDirCreated := true, tempDirRemoved := false, emittedHeader := none }
        else
          match add_metadata_call_site with
          | .typeError =>
              { printed := diag, outcome := .exception, workersStarted := n,
                tempDirCreated := true, tempDirRemoved := false, emittedHeader := none }
          | .ok lines =>
              { printed := diag, outcome := .completed, workersStarted := n,
                tempDirCreated := true, tempDirRemoved := true,
                emittedHeader := some lines }

/- ---------------------------------------------------------------
   scripts/run_genmod.py, build_annotation
   --------------------------------------------------------------- -/

/-- build_annotation (run_genmod.py lines 143-158), represented by the
paths it writes the two pickled index blobs to: os.path.join(outdir,
"genes.db") and os.path.join(outdir, "exons.db"). -/
def build_annot_writes (outdir : String) : List String :=
  [os_path_join outdir "genes.db", os_path_join outdir "exons.db"]

/-- The paths the annotate command loads the index blobs from
(run_genmod.py lines 236-237): os.path.join(annotation_dir, "genes.db")
and os.path.join(annotation_dir, "exons.db"). -/
def annot_index_reads (dir : String) : List String :=
  [os_path_join dir "genes.db", os_path_join dir "exons.db"]

/- ---------------------------------------------------------------
   Concrete inputs used by the witnesses and counterexamples
   --------------------------------------------------------------- -/

/-- A trio pedigree: family 1 with individuals 1 (son), 2 (father),
3 (mother), as in tests/test_recessive.py. -/
def trioFamilies : List (String × List String) :=
  [("1", ["1", "2", "3"])]

/-- A well-formed run: index present, trio pedigree matching the
variant file's individuals, 4 cpus, no external failure. -/
def exGood : AnnotateInput :=
  { indexPresent := true, families := trioFamilies,
    vcfIndividuals := ["1", "2", "3"], cpuCount := 4, bodyFails := false }

/-- A run whose annotation directory lacks the index blobs but is
otherwise well formed. -/
def exNoIndex : AnnotateInput :=
  { indexPresent := false, families := trioFamilies,
    vcfIndividuals := ["1", "2", "3"], cpuCount := 4, bodyFails := false }

/-- A run whose variant file lacks individual 3 of the pedigree. -/
def exMismatch : AnnotateInput :=
  { indexPresent := true, families := trioFamilies,
    vcfIndividuals := ["1", "2"], cpuCount := 4, bodyFails := false }

/-- A well-formed run in which the worker/queue phase raises. -/
def exBodyFails : AnnotateInput :=
  { indexPresent := true, families := trioFamilies,
    vcfIndividuals := ["1", "2", "3"], cpuCount := 4, bodyFails := true }

/- ---------------------------------------------------------------
   Theorems
   --------------------------------------------------------------- -/

/-- Sanity check of the spec-modelled classifier against
tests/test_recessive.py's recessive_variant (child 1/1, father 0/1,
mother 0/1): AR_hom holds, AR_hom_denovo does not. -/
theorem AR_model_matches_test_recessive_variant :
    AR_hom ⟨parseGT "1/1", parseGT "0/1", parseGT "0/1"⟩ = true
    ∧ AR_hom_denovo ⟨parseGT "1/1", parseGT "0/1", parseGT "0/1"⟩ = false := by
  decide

/-- Sanity check of the spec-modelled classifier against
tests/test_recessive.py's recessive_dn (child 1/1, father 0/1, mother
0/0): AR_hom_denovo holds, AR_hom does not. -/
theorem AR_model_matches_test_recessive_dn :
    AR_hom ⟨parseGT "1/1", parseGT "0/1", parseGT "0/0"⟩ = false
    ∧ AR_hom_denovo ⟨parseGT "1/1", parseGT "0/1", parseGT "0/0"⟩ = true := by
  decide

/-- Sanity check of the spec-modelled classifier against
tests/test_recessive.py's not_recessive (child 0/1, father 0/1, mother
./.): neither AR model holds. -/
theorem AR_model_matches_test_not_recessive :
    AR_hom ⟨parseGT "0/1", parseGT "0/1", parseGT "./."⟩ = false
    ∧ AR_hom_denovo ⟨parseGT "0/1", parseGT "0/1", parseGT "./."⟩ = false := by
  decide

/-- C1: for the family of affected child, unaffected father and
unaffected mother, a variant where the child is 1/1 (hom_alt), the
father is ./. (missing) and the mother is 0/1 (het) is classified with
both AR_hom = true and AR_hom_denovo = true: the missing father
genotype falsifies neither the AR_hom model nor its de-novo form. -/
theorem C1_missing_parent_recessive :
    AR_hom ⟨parseGT "1/1", parseGT "./.", parseGT "0/1"⟩ = true
    ∧ AR_hom_denovo ⟨parseGT "1/1", parseGT "./.", parseGT "0/1"⟩ = true := by
  decide

/-- C2 counterexample: a run whose annotation directory lacks the index
blobs but is otherwise well formed starts its worker and never
terminates with exit code 3, refuting the claim that a missing index is
fatal with exit code 3 before any workers are started.  The diagnostic
is printed, but the run falls through the except branch and goes on. -/
theorem C2_cex_missing_index_not_fatal :
    (annotate exNoIndex).workersStarted = 1
    ∧ (annotate exNoIndex).outcome ≠ Outcome.sysExit 3
    ∧ missingIndexMsg ∈ (annotate exNoIndex).printed := by
  decide

/-- C2 amended: when the index blobs are missing the annotate run prints
the diagnostic and continues (the except FileNotFoundError branch ends
in `pass`); no run of the annotate command ever exits with code 3. -/
theorem C2_missing_index_reported_not_fatal (inp : AnnotateInput) :
    (annotate inp).outcome ≠ Outcome.sysExit 3
    ∧ (inp.indexPresent = false → missingIndexMsg ∈ (annotate inp).printed) := by
  unfold annotate
  cases hf : get_family inp.families with
  | none =>
      cases hip : inp.indexPresent <;> simp_all
  | some fam =>
      cases hip : inp.indexPresent <;>
        by_cases hs : sameSet fam inp.vcfIndividuals = false <;>
        cases hb : inp.bodyFails <;>
        simp_all [add_metadata_call_site]

/-- C2 witness: the amended statement instantiated at the concrete
missing-index run. -/
theorem C2_missing_index_reported_not_fatal_witness :
    (annotate exNoIndex).outcome ≠ Outcome.sysExit 3
    ∧ missingIndexMsg ∈ (annotate exNoIndex).printed :=
  ⟨(C2_missing_index_reported_not_fatal exNoIndex).1,
   (C2_missing_index_reported_not_fatal exNoIndex).2 rfl⟩

/-- C3 counterexample: when the pedigree individuals {1,2,3} differ from
the variant-file individuals {1,2}, the run aborts before any worker is
spawned, but it terminates through a bare sys.exit(), whose exit status
is 0 — not 1 as the claim states. -/
theorem C3_cex_mismatch_exit_status :
    (annotate exMismatch).outcome = Outcome.sysExit 0
    ∧ (annotate exMismatch).outcome ≠ Outcome.sysExit 1
    ∧ (annotate exMismatch).workersStarted = 0 := by
  decide

/-- C3 amended: if the set of pedigree individual ids differs from the
set of variant-file individual ids, the annotate run aborts before any
worker is spawned and before the scratch directory is created, exiting
via a bare sys.exit() — i.e. with status 0, not 1. -/
theorem C3_mismatch_aborts_before_workers (inp : AnnotateInput)
    (fam : List String)
    (hf : get_family inp.families = some fam)
    (hs : sameSet fam inp.vcfIndividuals = false) :
    (annotate inp).workersStarted = 0
    ∧ (annotate inp).outcome = Outcome.sysExit 0
    ∧ (annotate inp).tempDirCreated = false := by
  unfold annotate
  simp [hf, hs]

/-- C3 witness: the amended statement instantiated at the concrete
mismatching run. -/
theorem C3_mismatch_aborts_before_workers_witness :
    (annotate exMismatch).workersStarted = 0
    ∧ (annotate exMismatch).outcome = Outcome.sysExit 0
    ∧ (annotate exMismatch).tempDirCreated = false :=
  C3_mismatch_aborts_before_workers exMismatch ["1", "2", "3"] rfl (by decide)

/-- C4 counterexample: on a 4-cpu machine the claimed default
max(1, cpu_count*2 − 1) = 7 differs from the worker count the code
actually uses, which is hard-wired to 1 (the cpu-based formula on line
285 is commented out). -/
theorem C4_cex_worker_count_not_cpu_formula :
    num_model_checkers 4 ≠ max 1 (4 * 2 - 1) := by
  decide

/-- C4 amended: the number of classifier workers is 1 for every cpu
count — the cpu_count-based formula is commented out — and consequently
no annotate run ever starts more than one worker. -/
theorem C4_single_worker :
    (∀ cpu : Nat, num_model_checkers cpu = 1)
    ∧ ∀ inp : AnnotateInput, (annotate inp).workersStarted ≤ 1 := by
  refine ⟨fun cpu => rfl, fun inp => ?_⟩
  unfold annotate
  cases hf : get_family inp.families with
  | none => simp
  | some fam =>
      by_cases hs : sameSet fam inp.vcfIndividuals = false <;>
        cases hb : inp.bodyFails <;>
        simp_all [add_metadata_call_site, num_model_checkers]

/-- C5 counterexample: in a run in which the worker/queue phase raises,
the scratch directory has been created but is not removed — the
shutil.rmtree on line 344 is not protected by any try/finally, so this
failure exit path leaks the directory, refuting the claim that it is
deleted on every exit path. -/
theorem C5_cex_failure_leaks_scratch_dir :
    (annotate exBodyFails).tempDirCreated = true
    ∧ (annotate exBodyFails).tempDirRemoved = false := by
  decide

/-- C5 amended: the scratch directory is never removed by any run of
the current code: there is no try/finally, so failure paths skip the
rmtree, and the nominal success path dies beforehand with the TypeError
raised by the positional-kwargs call to add_metadata on line 328. -/
theorem C5_scratch_dir_never_removed :
    ∀ inp : AnnotateInput, (annotate inp).tempDirRemoved = false := by
  intro inp
  unfold annotate
  cases hf : get_family inp.families with
  | none => simp
  | some fam =>
      by_cases hs : sameSet fam inp.vcfIndividuals = false <;>
        cases hb : inp.bodyFails <;>
        simp_all [add_metadata_call_site]

/-- C6: a fully well-formed annotate run terminates with an uncaught
exception and emits no header at all: line 328 calls
add_metadata(head, kwargs), passing the kwargs dict as a second
positional argument to a signature that accepts only one, which raises
TypeError before print_headers is reached.  Had the call spread the
kwargs as intended, add_metadata would, for this run (vep and all
optional sources off), have added exactly the four claimed lines ANN,
Comp, GM, MS. -/
theorem C6_header_never_emitted :
    (annotate exGood).outcome = Outcome.exception
    ∧ (annotate exGood).emittedHeader = none
    ∧ add_metadata [] false false false false = ["ANN", "Comp", "GM", "MS"] := by
  decide

/-- C7 counterexample: with destination directory "D" the
build_annotation command writes the index blobs to "D/genes.db" and
"D/exons.db", not to "D/genes" and "D/exons" as the claim states. -/
theorem C7_cex_blob_paths_have_db_suffix :
    build_annot_writes "D" ≠ ["D/genes", "D/exons"] := by
  decide

/-- C7 amended: build_annotation writes the two index blobs to
outdir/genes.db and outdir/exons.db — exactly the paths the annotate
command loads the blobs from for the same directory. -/
theorem C7_blob_paths :
    (∀ d : String, build_annot_writes d = annot_index_reads d)
    ∧ build_annot_writes "D" = ["D/genes.db", "D/exons.db"] := by
  exact ⟨fun d => rfl, by decide⟩

/-- C8 counterexample: an IOError raised while building the tabix index
of a cadd source produces no diagnostic at all when verbose mode is
off — the error is silently swallowed, refuting the claim that it is
surfaced to the user even with verbose off. -/
theorem C8_cex_tabix_ioerror_swallowed :
    check_tabix_index (some "could not build tabix index") "cadd" false = [] := by
  decide

/-- C8 amended: an IOError raised while ensuring a tabix index is
reported if and only if verbose mode is on and the file type is one of
cadd or vcf; with verbose off (or an unexpected file type) it is
silently ignored, and a successful indexing prints nothing. -/
theorem C8_tabix_ioerror_verbose_only (e ft : String) (v : Bool) :
    (check_tabix_index (some e) ft v ≠ []
      ↔ v = true ∧ (ft = "cadd" ∨ ft = "vcf"))
    ∧ check_tabix_index none ft v = [] := by
  unfold check_tabix_index
  by_cases h1 : ft = "cadd" <;> by_cases h2 : ft = "vcf" <;>
    cases v <;> simp_all

/-- C9: get_family returns exactly one family — the value of
popitem on the parsed families mapping, i.e. the most recently inserted
entry, whatever families precede it — and the whole annotate run
depends on the pedigree's families only through that one value, so all
other families are silently ignored. -/
theorem C9_popitem_single_family
    (fs gams : List (String × List String)) (fid : String)
    (finds : List String) (inp : AnnotateInput)
    (hlast : get_family gams = get_family (fs ++ [(fid, finds)])) :
    get_family (fs ++ [(fid, finds)]) = some finds
    ∧ annotate { inp with families := gams }
      = annotate { inp with families := fs ++ [(fid, finds)] } := by
  constructor
  · unfold get_family
    rw [List.getLast?_append_cons]
    rfl
  · unfold annotate
    rw [show ({ inp with families := gams } : AnnotateInput).families = gams from rfl,
        show ({ inp with families := fs ++ [(fid, finds)] } : AnnotateInput).families
          = fs ++ [(fid, finds)] from rfl, hlast]

/-- C9 witness: with two parsed families, get_family selects the
last-inserted one, and the annotate run on the two-family pedigree is
identical to the run on a pedigree holding only that selected family. -/
theorem C9_popitem_single_family_witness :
    get_family [("1", ["1", "2", "3"]), ("2", ["9"])] = some ["9"]
    ∧ annotate { exGood with families := [("7", ["9"])] }
      = annotate { exGood with
          families := [("1", ["1", "2", "3"]), ("2", ["9"])] } :=
  C9_popitem_single_family [("1", ["1", "2", "3"])] [("7", ["9"])] "2" ["9"]
    exGood (by decide)

/-- C10: with an outfile, print_headers opens it in mode "w" (which
truncates an existing file) and writes every header line, with an
effect independent of the silent flag and nothing on stdout; without an
outfile nothing is written to a file and the header lines go to stdout
exactly when silent is off. -/
theorem C10_print_headers_modes (head : List String) (path : String)
    (silent : Bool) :
    print_headers head (some path) silent = print_headers head (some path) false
    ∧ (print_headers head (some path) silent).fileWrite = some (path, "w", head)
    ∧ (print_headers head (some path) silent).stdout = []
    ∧ (print_headers head none silent).fileWrite = none
    ∧ (print_headers head none silent).stdout = (if silent then [] else head) := by
  exact ⟨rfl, rfl, rfl, rfl, rfl⟩

end Genmod
